import Mathlib

/-!
Shallow embedding of the data access layer of `db.py` (a SQLite-backed
persistence layer for users, startups and startup membership requests),
together with proofs of the specification claims about it.

The store is modelled as three lists of rows kept in rowid order plus the
next autoincrement id of each table.  Timestamps (`datetime.now()` /
`CURRENT_TIMESTAMP`) are modelled as natural numbers passed in as a `now`
argument.  Engine failures caught by each operation's `try/except` block
are modelled by boolean-fault call wrappers and by an instrumented
connection-lifecycle model (`runTryBlock`).
-/

namespace OddiyBot

/-- Row of the `users` table (`init_db` in db.py): `id` is the autoincrement
primary key, `user_id` the UNIQUE NOT NULL external identifier; the profile
text columns default to the empty string; `joined_at` is a timestamp. -/
structure UserRow where
  id : Nat
  user_id : Int
  username : String
  first_name : String
  last_name : String
  phone : String
  gender : String
  birth_date : String
  bio : String
  joined_at : Nat
deriving DecidableEq, Repr

/-- Row of the `startups` table (`init_db` in db.py): `status` defaults to
`"pending"`, `results` to the empty string, `started_at` and `ended_at`
are nullable timestamps. -/
structure StartupRow where
  id : Nat
  name : String
  description : String
  logo : Option String
  group_link : String
  owner_id : Int
  status : String
  results : String
  created_at : Nat
  started_at : Option Nat
  ended_at : Option Nat
deriving DecidableEq, Repr

/-- Row of the `startup_members` table (`init_db` in db.py): `status`
defaults to `"pending"`; the table carries UNIQUE(startup_id, user_id). -/
structure MemberRow where
  id : Nat
  startup_id : Nat
  user_id : Int
  status : String
  joined_at : Nat
deriving DecidableEq, Repr

/-- The SQLite store: the three tables in rowid order together with the next
autoincrement id of each table. -/
structure DB where
  users : List UserRow
  startups : List StartupRow
  members : List MemberRow
  nextUserRowId : Nat
  nextStartupId : Nat
  nextMemberId : Nat
deriving DecidableEq, Repr

/-- The freshly initialised store (`init_db`): empty tables, counters at 1. -/
def emptyDB : DB :=
  { users := [], startups := [], members := [],
    nextUserRowId := 1, nextStartupId := 1, nextMemberId := 1 }

/-! ### Users operations -/

/-- `get_user` (db.py): `SELECT * FROM users WHERE user_id = ?`, `fetchone`. -/
def get_user (db : DB) (uid : Int) : Option UserRow :=
  db.users.find? (fun u => u.user_id == uid)

/-- `save_user` (db.py): `INSERT OR REPLACE INTO users
(user_id, username, first_name, joined_at) VALUES (?, ?, ?, ?)`.
REPLACE deletes any row conflicting on the UNIQUE `user_id` and inserts a
fresh row (new rowid); the columns not named in the INSERT take their
schema defaults (empty string). -/
def save_user (db : DB) (uid : Int) (username first_name : String) (now : Nat) : DB :=
  { db with
    users := db.users.filter (fun u => u.user_id != uid) ++
      [{ id := db.nextUserRowId, user_id := uid, username := username,
         first_name := first_name, last_name := "", phone := "", gender := "",
         birth_date := "", bio := "", joined_at := now }],
    nextUserRowId := db.nextUserRowId + 1 }

/-- The known-safe set of updatable `users` columns for `update_user_field`
(the profile text columns of the schema). -/
def userFields : List String :=
  ["username", "first_name", "last_name", "phone", "gender", "birth_date", "bio"]

/-- Effect of `UPDATE users SET {field} = ?` on one row, for `field` in the
known-safe column set; any other string is an SQL error caught by the
`except` block, hence no change. -/
def setUserField (u : UserRow) (field value : String) : UserRow :=
  if field == "username" then { u with username := value }
  else if field == "first_name" then { u with first_name := value }
  else if field == "last_name" then { u with last_name := value }
  else if field == "phone" then { u with phone := value }
  else if field == "gender" then { u with gender := value }
  else if field == "birth_date" then { u with birth_date := value }
  else if field == "bio" then { u with bio := value }
  else u

/-- Projection of a `users` row on a named text column (for stating which
columns an update touches). -/
def getUserField (u : UserRow) (field : String) : String :=
  if field == "username" then u.username
  else if field == "first_name" then u.first_name
  else if field == "last_name" then u.last_name
  else if field == "phone" then u.phone
  else if field == "gender" then u.gender
  else if field == "birth_date" then u.birth_date
  else if field == "bio" then u.bio
  else ""

/-- `update_user_field` (db.py): `UPDATE users SET {field} = ? WHERE
user_id = ?` — updates the named column of every row matching `user_id`. -/
def update_user_field (db : DB) (uid : Int) (field value : String) : DB :=
  { db with
    users := db.users.map (fun u =>
      if u.user_id == uid then setUserField u field value else u) }

/-! ### Startups operations -/

/-- `create_startup` (db.py): `INSERT INTO startups (name, description, logo,
group_link, owner_id, created_at) VALUES (?, ?, ?, ?, ?, ?)`; `status`,
`results`, `started_at`, `ended_at` take the schema defaults; returns
`cursor.lastrowid`.  The pair is (returned id, updated store). -/
def create_startup (db : DB) (name description : String) (logo : Option String)
    (group_link : String) (owner_id : Int) (now : Nat) : Option Nat × DB :=
  (some db.nextStartupId,
   { db with
     startups := db.startups ++
       [{ id := db.nextStartupId, name := name, description := description,
          logo := logo, group_link := group_link, owner_id := owner_id,
          status := "pending", results := "", created_at := now,
          started_at := none, ended_at := none }],
     nextStartupId := db.nextStartupId + 1 })

/-- `get_startup` (db.py): `SELECT * FROM startups WHERE id = ?`, `fetchone`. -/
def get_startup (db : DB) (sid : Nat) : Option StartupRow :=
  db.startups.find? (fun s => s.id == sid)

/-- Stable insertion of a startup row into a list ordered by `created_at`
descending: the row goes after every earlier row with `created_at` at least
its own (models the order produced by `ORDER BY created_at DESC`). -/
def insertByCreated (s : StartupRow) : List StartupRow → List StartupRow
  | [] => [s]
  | t :: ts => if s.created_at ≤ t.created_at then t :: insertByCreated s ts
               else s :: t :: ts

/-- Rows reordered by `created_at` descending (`ORDER BY created_at DESC`). -/
def orderByCreatedDesc : List StartupRow → List StartupRow
  | [] => []
  | s :: rest => insertByCreated s (orderByCreatedDesc rest)

/-- `get_startups_by_owner` (db.py): `SELECT * FROM startups WHERE
owner_id = ? ORDER BY created_at DESC`, `fetchall`. -/
def get_startups_by_owner (db : DB) (owner_id : Int) : List StartupRow :=
  orderByCreatedDesc (db.startups.filter (fun s => s.owner_id == owner_id))

/-- The startups rows matching one status literal (the `WHERE status = "…"`
filter shared by the four paginated queries and the statistics counts). -/
def statusStartups (db : DB) (st : String) : List StartupRow :=
  db.startups.filter (fun s => s.status == st)

/-- Common body of the four status-filtered paginated queries (db.py):
first `SELECT COUNT(*) FROM startups WHERE status = "…"`, then
`SELECT * … ORDER BY created_at DESC LIMIT ? OFFSET ?` with
`offset = (page - 1) * per_page`. -/
def pageByStatus (db : DB) (st : String) (page per_page : Nat) :
    List StartupRow × Nat :=
  let total := (statusStartups db st).length
  let offset := (page - 1) * per_page
  (((orderByCreatedDesc (statusStartups db st)).drop offset).take per_page, total)

/-- `get_pending_startups` (db.py). -/
def get_pending_startups (db : DB) (page per_page : Nat) : List StartupRow × Nat :=
  pageByStatus db "pending" page per_page

/-- `get_active_startups` (db.py). -/
def get_active_startups (db : DB) (page per_page : Nat) : List StartupRow × Nat :=
  pageByStatus db "active" page per_page

/-- `get_completed_startups` (db.py). -/
def get_completed_startups (db : DB) (page per_page : Nat) : List StartupRow × Nat :=
  pageByStatus db "completed" page per_page

/-- `get_rejected_startups` (db.py). -/
def get_rejected_startups (db : DB) (page per_page : Nat) : List StartupRow × Nat :=
  pageByStatus db "rejected" page per_page

/-- Effect of `update_startup_status` on one startups row: for target
`"active"` the UPDATE also sets `started_at = now`, for `"completed"` it
also sets `ended_at = now`, otherwise it sets only `status`; rows whose id
does not match are untouched. -/
def startupStatusStep (sid : Nat) (status : String) (now : Nat)
    (s : StartupRow) : StartupRow :=
  if s.id == sid then
    if status == "active" then { s with status := status, started_at := some now }
    else if status == "completed" then { s with status := status, ended_at := some now }
    else { s with status := status }
  else s

/-- `update_startup_status` (db.py): one of three UPDATE statements on
`startups … WHERE id = ?` depending on the target status. -/
def update_startup_status (db : DB) (sid : Nat) (status : String) (now : Nat) : DB :=
  { db with startups := db.startups.map (startupStatusStep sid status now) }

/-- `update_startup_results` (db.py): `UPDATE startups SET results = ?
WHERE id = ?`. -/
def update_startup_results (db : DB) (sid : Nat) (results : String) : DB :=
  { db with
    startups := db.startups.map (fun s =>
      if s.id == sid then { s with results := results } else s) }

/-! ### Startup members operations -/

/-- `add_startup_member` (db.py): first `SELECT id FROM startup_members
WHERE startup_id = ? AND user_id = ?`; if a row exists its id is returned
and nothing is written, otherwise `INSERT INTO startup_members (startup_id,
user_id, joined_at) VALUES (?, ?, ?)` (status takes the default
`"pending"`) and the new rowid is returned. -/
def add_startup_member (db : DB) (sid : Nat) (uid : Int) (now : Nat) :
    Option Nat × DB :=
  match db.members.find? (fun m => m.startup_id == sid && m.user_id == uid) with
  | some m => (some m.id, db)
  | none =>
      (some db.nextMemberId,
       { db with
         members := db.members ++
           [{ id := db.nextMemberId, startup_id := sid, user_id := uid,
              status := "pending", joined_at := now }],
         nextMemberId := db.nextMemberId + 1 })

/-- `get_join_request_id` (db.py): `SELECT id FROM startup_members WHERE
startup_id = ? AND user_id = ?`, `fetchone`. -/
def get_join_request_id (db : DB) (sid : Nat) (uid : Int) : Option Nat :=
  (db.members.find? (fun m => m.startup_id == sid && m.user_id == uid)).map
    (fun m => m.id)

/-- `update_join_request` (db.py): `UPDATE startup_members SET status = ?
WHERE id = ?`. -/
def update_join_request (db : DB) (rid : Nat) (status : String) : DB :=
  { db with
    members := db.members.map (fun m =>
      if m.id == rid then { m with status := status } else m) }

/-- The membership rows of one startup whose status is `"accepted"`
(`WHERE sm.startup_id = ? AND sm.status = "accepted"`). -/
def acceptedRows (db : DB) (sid : Nat) : List MemberRow :=
  db.members.filter (fun m => m.startup_id == sid && m.status == "accepted")

/-- One row of the member/users join of `get_startup_members`: the projected
user profile columns. -/
structure MemberInfo where
  user_id : Int
  first_name : String
  last_name : String
  username : String
  phone : String
  bio : String
deriving DecidableEq, Repr

/-- The `startup_members JOIN users ON sm.user_id = u.user_id` result for
one startup restricted to accepted rows; under the UNIQUE `users.user_id`
constraint each accepted row joins with at most the one matching user. -/
def acceptedJoin (db : DB) (sid : Nat) : List MemberInfo :=
  (acceptedRows db sid).filterMap (fun m =>
    (db.users.find? (fun u => u.user_id == m.user_id)).map (fun u =>
      { user_id := u.user_id, first_name := u.first_name,
        last_name := u.last_name, username := u.username,
        phone := u.phone, bio := u.bio }))

/-- `get_startup_members` (db.py): `SELECT COUNT(*)` over the accepted join,
then the join projection with `LIMIT ? OFFSET ?`,
`offset = (page - 1) * per_page` (the SELECT carries no ORDER BY; the rows
come in table order). -/
def get_startup_members (db : DB) (sid : Nat) (page per_page : Nat) :
    List MemberInfo × Nat :=
  let total := (acceptedJoin db sid).length
  let offset := (page - 1) * per_page
  (((acceptedJoin db sid).drop offset).take per_page, total)

/-- `get_all_startup_members` (db.py): `SELECT user_id FROM startup_members
WHERE startup_id = ? AND status = "accepted"`. -/
def get_all_startup_members (db : DB) (sid : Nat) : List Int :=
  (acceptedRows db sid).map (fun m => m.user_id)

/-! ### Statistics and listing operations -/

/-- The six counts of the `get_statistics` snapshot. -/
structure Statistics where
  total_users : Nat
  total_startups : Nat
  active_startups : Nat
  pending_startups : Nat
  completed_startups : Nat
  rejected_startups : Nat
deriving DecidableEq, Repr

/-- `get_statistics` (db.py): six COUNT(*) statements — all users, all
startups, and the startups of each of the four statuses. -/
def get_statistics (db : DB) : Statistics :=
  { total_users := db.users.length
    total_startups := db.startups.length
    active_startups := (statusStartups db "active").length
    pending_startups := (statusStartups db "pending").length
    completed_startups := (statusStartups db "completed").length
    rejected_startups := (statusStartups db "rejected").length }

/-- `get_all_users` (db.py): `SELECT user_id FROM users` (engine-default,
i.e. rowid, order). -/
def get_all_users (db : DB) : List Int :=
  db.users.map (fun u => u.user_id)

/-- Stable insertion of a users row into a list ordered by `joined_at`
descending (for `ORDER BY joined_at DESC`). -/
def insertByJoined (u : UserRow) : List UserRow → List UserRow
  | [] => [u]
  | t :: ts => if u.joined_at ≤ t.joined_at then t :: insertByJoined u ts
               else u :: t :: ts

/-- Users rows reordered by `joined_at` descending. -/
def orderByJoinedDesc : List UserRow → List UserRow
  | [] => []
  | u :: rest => insertByJoined u (orderByJoinedDesc rest)

/-- Projection of `get_recent_users` (db.py): `user_id, username,
first_name, last_name, joined_at`. -/
structure RecentUser where
  user_id : Int
  username : String
  first_name : String
  last_name : String
  joined_at : Nat
deriving DecidableEq, Repr

/-- `get_recent_users` (db.py): `SELECT user_id, username, first_name,
last_name, joined_at FROM users ORDER BY joined_at DESC LIMIT ?`. -/
def get_recent_users (db : DB) (limit : Nat) : List RecentUser :=
  ((orderByJoinedDesc db.users).take limit).map (fun u =>
    { user_id := u.user_id, username := u.username,
      first_name := u.first_name, last_name := u.last_name,
      joined_at := u.joined_at })

/-- Projection of `get_recent_startups` (db.py): `id, name, status,
created_at`. -/
structure RecentStartup where
  id : Nat
  name : String
  status : String
  created_at : Nat
deriving DecidableEq, Repr

/-- `get_recent_startups` (db.py): `SELECT id, name, status, created_at
FROM startups ORDER BY created_at DESC LIMIT ?`. -/
def get_recent_startups (db : DB) (limit : Nat) : List RecentStartup :=
  ((orderByCreatedDesc db.startups).take limit).map (fun s =>
    { id := s.id, name := s.name, status := s.status,
      created_at := s.created_at })

/-! ### Error-handling boundary

Every operation in db.py wraps its whole body in `try/except Exception`;
the `except` branch logs and returns the operation's safe default.  The
`_call` wrappers below model the value returned to the caller: `fault`
is true exactly when the storage engine raises somewhere inside the try
block, in which case the `except` branch's default is returned. -/

/-- `get_user` as called: `None` on any engine failure. -/
def get_user_call (db : DB) (uid : Int) (fault : Bool) : Option UserRow :=
  if fault then none else get_user db uid

/-- `get_startup` as called: `None` on any engine failure. -/
def get_startup_call (db : DB) (sid : Nat) (fault : Bool) : Option StartupRow :=
  if fault then none else get_startup db sid

/-- `get_join_request_id` as called: `None` on any engine failure. -/
def get_join_request_id_call (db : DB) (sid : Nat) (uid : Int) (fault : Bool) :
    Option Nat :=
  if fault then none else get_join_request_id db sid uid

/-- `create_startup`'s returned value: `None` on any engine failure. -/
def create_startup_call (db : DB) (name description : String)
    (logo : Option String) (group_link : String) (owner_id : Int) (now : Nat)
    (fault : Bool) : Option Nat :=
  if fault then none
  else (create_startup db name description logo group_link owner_id now).1

/-- `add_startup_member`'s returned value: `None` on any engine failure. -/
def add_startup_member_call (db : DB) (sid : Nat) (uid : Int) (now : Nat)
    (fault : Bool) : Option Nat :=
  if fault then none else (add_startup_member db sid uid now).1

/-- `get_startups_by_owner` as called: `[]` on any engine failure. -/
def get_startups_by_owner_call (db : DB) (owner_id : Int) (fault : Bool) :
    List StartupRow :=
  if fault then [] else get_startups_by_owner db owner_id

/-- `get_all_startup_members` as called: `[]` on any engine failure. -/
def get_all_startup_members_call (db : DB) (sid : Nat) (fault : Bool) :
    List Int :=
  if fault then [] else get_all_startup_members db sid

/-- `get_all_users` as called: `[]` on any engine failure. -/
def get_all_users_call (db : DB) (fault : Bool) : List Int :=
  if fault then [] else get_all_users db

/-- `get_recent_users` as called: `[]` on any engine failure. -/
def get_recent_users_call (db : DB) (limit : Nat) (fault : Bool) :
    List RecentUser :=
  if fault then [] else get_recent_users db limit

/-- `get_recent_startups` as called: `[]` on any engine failure. -/
def get_recent_startups_call (db : DB) (limit : Nat) (fault : Bool) :
    List RecentStartup :=
  if fault then [] else get_recent_startups db limit

/-- `get_pending_startups` as called: `([], 0)` on any engine failure. -/
def get_pending_startups_call (db : DB) (page per_page : Nat) (fault : Bool) :
    List StartupRow × Nat :=
  if fault then ([], 0) else get_pending_startups db page per_page

/-- `get_active_startups` as called: `([], 0)` on any engine failure. -/
def get_active_startups_call (db : DB) (page per_page : Nat) (fault : Bool) :
    List StartupRow × Nat :=
  if fault then ([], 0) else get_active_startups db page per_page

/-- `get_completed_startups` as called: `([], 0)` on any engine failure. -/
def get_completed_startups_call (db : DB) (page per_page : Nat) (fault : Bool) :
    List StartupRow × Nat :=
  if fault then ([], 0) else get_completed_startups db page per_page

/-- `get_rejected_startups` as called: `([], 0)` on any engine failure. -/
def get_rejected_startups_call (db : DB) (page per_page : Nat) (fault : Bool) :
    List StartupRow × Nat :=
  if fault then ([], 0) else get_rejected_startups db page per_page

/-- `get_startup_members` as called: `([], 0)` on any engine failure. -/
def get_startup_members_call (db : DB) (sid : Nat) (page per_page : Nat)
    (fault : Bool) : List MemberInfo × Nat :=
  if fault then ([], 0) else get_startup_members db sid page per_page

/-- `get_statistics` as called: the Python function returns the six-key
dict on success and the empty dict `\x7b\x7d` on any engine failure;
`none` models the empty mapping. -/
def get_statistics_call (db : DB) (fault : Bool) : Option Statistics :=
  if fault then none else some (get_statistics db)

/-! ### Connection lifecycle

Every try block in db.py has the shape: `conn = get_db_connection()`
(engine call 0), then a fixed sequence of cursor/commit engine calls
(calls 1 … steps), then `conn.close()`, then `return`.  No `except`
branch and no `finally` closes the connection.  `runTryBlock steps
faultAt` records whether the connection got opened and whether
`conn.close()` executed, when engine call `faultAt` (if any, and if in
range) raises. -/

/-- Whether the connection was opened, and whether it was closed before the
operation returned. -/
structure ConnTrace where
  opened : Bool
  closed : Bool
deriving DecidableEq, Repr

/-- Connection lifecycle of one try block with `steps` engine calls after
the connect: a fault at call 0 means no connection was opened; a fault at
call 1 … steps leaves the opened connection unclosed, because the `except`
branch returns without closing; with no fault the `conn.close()` before
the `return` runs. -/
def runTryBlock (steps : Nat) (faultAt : Option Nat) : ConnTrace :=
  match faultAt with
  | none => { opened := true, closed := true }
  | some i =>
      if i = 0 then { opened := false, closed := false }
      else if i ≤ steps then { opened := true, closed := false }
      else { opened := true, closed := true }

/-- Connection trace of `get_user` (calls: connect, execute, fetchone). -/
def get_user_trace (faultAt : Option Nat) : ConnTrace := runTryBlock 2 faultAt

/-- Connection trace of `save_user` (connect, execute, commit). -/
def save_user_trace (faultAt : Option Nat) : ConnTrace := runTryBlock 2 faultAt

/-- Connection trace of `update_user_field` (connect, execute, commit). -/
def update_user_field_trace (faultAt : Option Nat) : ConnTrace := runTryBlock 2 faultAt

/-- Connection trace of `create_startup` (connect, execute, commit). -/
def create_startup_trace (faultAt : Option Nat) : ConnTrace := runTryBlock 2 faultAt

/-- Connection trace of `get_startup` (connect, execute, fetchone). -/
def get_startup_trace (faultAt : Option Nat) : ConnTrace := runTryBlock 2 faultAt

/-- Connection trace of `get_startups_by_owner` (connect, execute, fetchall). -/
def get_startups_by_owner_trace (faultAt : Option Nat) : ConnTrace := runTryBlock 2 faultAt

/-- Connection trace of `get_pending_startups` (connect, count execute,
fetchone, page execute, fetchall). -/
def get_pending_startups_trace (faultAt : Option Nat) : ConnTrace := runTryBlock 4 faultAt

/-- Connection trace of `get_active_startups`. -/
def get_active_startups_trace (faultAt : Option Nat) : ConnTrace := runTryBlock 4 faultAt

/-- Connection trace of `get_completed_startups`. -/
def get_completed_startups_trace (faultAt : Option Nat) : ConnTrace := runTryBlock 4 faultAt

/-- Connection trace of `get_rejected_startups`. -/
def get_rejected_startups_trace (faultAt : Option Nat) : ConnTrace := runTryBlock 4 faultAt

/-- Connection trace of `update_startup_status` (connect, execute, commit). -/
def update_startup_status_trace (faultAt : Option Nat) : ConnTrace := runTryBlock 2 faultAt

/-- Connection trace of `update_startup_results` (connect, execute, commit). -/
def update_startup_results_trace (faultAt : Option Nat) : ConnTrace := runTryBlock 2 faultAt

/-- Connection trace of `add_startup_member` on its insert path (connect,
select execute, fetchone, insert execute, commit); the early-return path
stops after call 2 and also closes. -/
def add_startup_member_trace (faultAt : Option Nat) : ConnTrace := runTryBlock 4 faultAt

/-- Connection trace of `get_join_request_id` (connect, execute, fetchone). -/
def get_join_request_id_trace (faultAt : Option Nat) : ConnTrace := runTryBlock 2 faultAt

/-- Connection trace of `update_join_request` (connect, execute, commit). -/
def update_join_request_trace (faultAt : Option Nat) : ConnTrace := runTryBlock 2 faultAt

/-- Connection trace of `get_startup_members` (connect, count execute,
fetchone, page execute, fetchall). -/
def get_startup_members_trace (faultAt : Option Nat) : ConnTrace := runTryBlock 4 faultAt

/-- Connection trace of `get_all_startup_members` (connect, execute, fetchall). -/
def get_all_startup_members_trace (faultAt : Option Nat) : ConnTrace := runTryBlock 2 faultAt

/-- Connection trace of `get_statistics` (connect, six execute/fetchone pairs). -/
def get_statistics_trace (faultAt : Option Nat) : ConnTrace := runTryBlock 12 faultAt

/-- Connection trace of `get_all_users` (connect, execute, fetchall). -/
def get_all_users_trace (faultAt : Option Nat) : ConnTrace := runTryBlock 2 faultAt

/-- Connection trace of `get_recent_users` (connect, execute, fetchall). -/
def get_recent_users_trace (faultAt : Option Nat) : ConnTrace := runTryBlock 2 faultAt

/-- Connection trace of `get_recent_startups` (connect, execute, fetchall). -/
def get_recent_startups_trace (faultAt : Option Nat) : ConnTrace := runTryBlock 2 faultAt

/-! ### Derived counts, invariants and sample data -/

/-- Number of `users` rows carrying one `user_id` (the UNIQUE constraint
keeps this at most 1 in every engine-reachable store). -/
def countUser (db : DB) (uid : Int) : Nat :=
  (db.users.filter (fun u => u.user_id == uid)).length

/-- Number of `startup_members` rows for one `(startup_id, user_id)` pair
(the UNIQUE(startup_id, user_id) constraint keeps this at most 1). -/
def memberPairCount (db : DB) (sid : Nat) (uid : Int) : Nat :=
  (db.members.filter (fun m => m.startup_id == sid && m.user_id == uid)).length

/-- The UNIQUE(startup_id, user_id) constraint of `startup_members`: two
rows agreeing on the pair are the same row. -/
def pairUnique (db : DB) : Prop :=
  ∀ m₁ ∈ db.members, ∀ m₂ ∈ db.members,
    m₁.startup_id = m₂.startup_id → m₁.user_id = m₂.user_id → m₁ = m₂

instance (db : DB) : Decidable (pairUnique db) := by
  unfold pairUnique; infer_instance

/-- Sample user row for concrete evaluations. -/
def uA : UserRow :=
  { id := 1, user_id := 10, username := "alice", first_name := "Alice",
    last_name := "", phone := "", gender := "", birth_date := "", bio := "",
    joined_at := 1 }

/-- Second sample user row. -/
def uB : UserRow :=
  { id := 2, user_id := 11, username := "bob", first_name := "Bob",
    last_name := "", phone := "", gender := "", birth_date := "", bio := "",
    joined_at := 2 }

/-- Sample startup row (status pending). -/
def sA : StartupRow :=
  { id := 1, name := "n", description := "d", logo := none, group_link := "g",
    owner_id := 10, status := "pending", results := "", created_at := 3,
    started_at := none, ended_at := none }

/-- Sample accepted membership row. -/
def mA : MemberRow :=
  { id := 1, startup_id := 1, user_id := 10, status := "accepted",
    joined_at := 4 }

/-- Sample pending membership row for the same startup. -/
def mB : MemberRow :=
  { id := 2, startup_id := 1, user_id := 11, status := "pending",
    joined_at := 5 }

/-- Sample store for concrete evaluations: two users, one pending startup,
one accepted and one pending membership row. -/
def dbW : DB :=
  { users := [uA, uB], startups := [sA], members := [mA, mB],
    nextUserRowId := 3, nextStartupId := 2, nextMemberId := 3 }

/-! ## Helper lemmas -/

/-- Mapping a function that is the identity on every element of a list is
the identity on the list. -/
theorem map_id_on {α : Type} (f : α → α) (l : List α)
    (h : ∀ a ∈ l, f a = a) : l.map f = l := by
  induction l with
  | nil => rfl
  | cons a t ih =>
      simp only [List.map_cons, h a (by simp)]
      rw [ih (fun x hx => h x (List.mem_cons_of_mem a hx))]

/-- The status-transition step never changes a row's id. -/
theorem startupStatusStep_id (sid : Nat) (status : String) (now : Nat)
    (s : StartupRow) : (startupStatusStep sid status now s).id = s.id := by
  unfold startupStatusStep
  split
  · split
    · rfl
    · split
      · rfl
      · rfl
  · rfl

/-- Point lookup by id commutes with the status-transition map. -/
theorem find_startup_map_status (l : List StartupRow) (sid : Nat)
    (status : String) (now : Nat) :
    (l.map (startupStatusStep sid status now)).find? (fun s => s.id == sid) =
      (l.find? (fun s => s.id == sid)).map (startupStatusStep sid status now) := by
  induction l with
  | nil => rfl
  | cons a t ih =>
      by_cases h : (a.id == sid) = true
      · rw [List.map_cons,
          List.find?_cons_of_pos (p := fun s : StartupRow => s.id == sid) _
            (by simp only [startupStatusStep_id]; exact h),
          List.find?_cons_of_pos (p := fun s : StartupRow => s.id == sid) _ h]
        rfl
      · rw [List.map_cons,
          List.find?_cons_of_neg (p := fun s : StartupRow => s.id == sid) _
            (by simp only [startupStatusStep_id]; exact h),
          List.find?_cons_of_neg (p := fun s : StartupRow => s.id == sid) _ h, ih]

/-- Field-level description of the status-transition step on the matching
row. -/
theorem startupStatusStep_spec (sid : Nat) (status : String) (now : Nat)
    (s : StartupRow) (hs : (s.id == sid) = true) :
    (startupStatusStep sid status now s).status = status ∧
    (status = "active" →
      (startupStatusStep sid status now s).started_at = some now ∧
      (startupStatusStep sid status now s).ended_at = s.ended_at) ∧
    (status = "completed" →
      (startupStatusStep sid status now s).ended_at = some now ∧
      (startupStatusStep sid status now s).started_at = s.started_at) ∧
    (status ≠ "active" → status ≠ "completed" →
      (startupStatusStep sid status now s).started_at = s.started_at ∧
      (startupStatusStep sid status now s).ended_at = s.ended_at) ∧
    (startupStatusStep sid status now s).id = s.id ∧
    (startupStatusStep sid status now s).name = s.name ∧
    (startupStatusStep sid status now s).description = s.description ∧
    (startupStatusStep sid status now s).logo = s.logo ∧
    (startupStatusStep sid status now s).group_link = s.group_link ∧
    (startupStatusStep sid status now s).owner_id = s.owner_id ∧
    (startupStatusStep sid status now s).results = s.results ∧
    (startupStatusStep sid status now s).created_at = s.created_at := by
  by_cases hA : status = "active"
  · subst hA
    simp [startupStatusStep, hs]
  · by_cases hC : status = "completed"
    · subst hC
      simp [startupStatusStep, hs]
    · simp [startupStatusStep, hs, hA, hC]

/-! ## Claim C1 -/

/-- C1: every access-layer operation catches any engine failure at its own
boundary and returns its safe default — `none` for the single-record
lookups (`get_user`, `get_startup`, `get_join_request_id`, and the id
returned by `create_startup` / `add_startup_member`), the empty list for
list queries, the pair of empty list and zero for the paginated queries,
and the empty mapping for `get_statistics`; no operation propagates a
raised error to the caller. -/
theorem claim_C1_fail_soft_defaults (db : DB) (uid oid : Int) (sid : Nat)
    (page pp lim : Nat) (nm ds gl : String) (lg : Option String) (now : Nat) :
    get_user_call db uid true = none ∧
    get_startup_call db sid true = none ∧
    get_join_request_id_call db sid uid true = none ∧
    create_startup_call db nm ds lg gl oid now true = none ∧
    add_startup_member_call db sid uid now true = none ∧
    get_startups_by_owner_call db oid true = [] ∧
    get_all_startup_members_call db sid true = [] ∧
    get_all_users_call db true = [] ∧
    get_recent_users_call db lim true = [] ∧
    get_recent_startups_call db lim true = [] ∧
    get_pending_startups_call db page pp true = ([], 0) ∧
    get_active_startups_call db page pp true = ([], 0) ∧
    get_completed_startups_call db page pp true = ([], 0) ∧
    get_rejected_startups_call db page pp true = ([], 0) ∧
    get_startup_members_call db sid page pp true = ([], 0) ∧
    get_statistics_call db true = none :=
  ⟨rfl, rfl, rfl, rfl, rfl, rfl, rfl, rfl, rfl, rfl, rfl, rfl, rfl, rfl, rfl, rfl⟩

/-! ## Claim C2 -/

/-- C2: for a startup id present in the store, `update_startup_status` with
target `"active"` sets the status and a non-null `started_at` while leaving
`ended_at` unchanged; with target `"completed"` it sets the status and a
non-null `ended_at` while leaving `started_at` unchanged; any other target
updates only the `status` column, leaving both timestamps (and every other
column) unchanged — they are never reset to null. -/
theorem claim_C2_status_transition (db : DB) (sid : Nat) (status : String)
    (now : Nat) (s : StartupRow) (h : get_startup db sid = some s) :
    ∃ t, get_startup (update_startup_status db sid status now) sid = some t ∧
      t.status = status ∧
      (status = "active" → t.started_at = some now ∧ t.ended_at = s.ended_at) ∧
      (status = "completed" → t.ended_at = some now ∧ t.started_at = s.started_at) ∧
      (status ≠ "active" → status ≠ "completed" →
        t.started_at = s.started_at ∧ t.ended_at = s.ended_at) ∧
      t.id = s.id ∧ t.name = s.name ∧ t.description = s.description ∧
      t.logo = s.logo ∧ t.group_link = s.group_link ∧
      t.owner_id = s.owner_id ∧ t.results = s.results ∧
      t.created_at = s.created_at := by
  unfold get_startup at h
  have hfind : get_startup (update_startup_status db sid status now) sid =
      some (startupStatusStep sid status now s) := by
    show (db.startups.map (startupStatusStep sid status now)).find?
        (fun x => x.id == sid) = some (startupStatusStep sid status now s)
    rw [find_startup_map_status, h]
    rfl
  have hs : (s.id == sid) = true :=
    List.find?_some (p := fun x : StartupRow => x.id == sid) h
  exact ⟨startupStatusStep sid status now s, hfind,
    startupStatusStep_spec sid status now s hs⟩

/-- Witness for C2 at the sample store: startup 1 moved to `"active"`. -/
theorem claim_C2_status_transition_witness :
    ∃ t, get_startup (update_startup_status dbW 1 "active" 9) 1 = some t ∧
      t.status = "active" ∧
      ("active" = "active" → t.started_at = some 9 ∧ t.ended_at = sA.ended_at) ∧
      ("active" = "completed" →
        t.ended_at = some 9 ∧ t.started_at = sA.started_at) ∧
      ("active" ≠ "active" → "active" ≠ "completed" →
        t.started_at = sA.started_at ∧ t.ended_at = sA.ended_at) ∧
      t.id = sA.id ∧ t.name = sA.name ∧ t.description = sA.description ∧
      t.logo = sA.logo ∧ t.group_link = sA.group_link ∧
      t.owner_id = sA.owner_id ∧ t.results = sA.results ∧
      t.created_at = sA.created_at :=
  claim_C2_status_transition dbW 1 "active" 9 sA (by decide)

/-! ## Claim C3 -/

/-- Unfolding of `add_startup_member` when a row for the pair exists. -/
theorem add_member_found (db : DB) (sid : Nat) (uid : Int) (now : Nat)
    (m : MemberRow)
    (hf : db.members.find? (fun m => m.startup_id == sid && m.user_id == uid) =
      some m) :
    add_startup_member db sid uid now = (some m.id, db) := by
  unfold add_startup_member
  rw [hf]

/-- Unfolding of `add_startup_member` when no row for the pair exists. -/
theorem add_member_not_found (db : DB) (sid : Nat) (uid : Int) (now : Nat)
    (hf : db.members.find? (fun m => m.startup_id == sid && m.user_id == uid) =
      none) :
    add_startup_member db sid uid now =
      (some db.nextMemberId,
       { db with
         members := db.members ++
           [{ id := db.nextMemberId, startup_id := sid, user_id := uid,
              status := "pending", joined_at := now }],
         nextMemberId := db.nextMemberId + 1 }) := by
  unfold add_startup_member
  rw [hf]

/-- C3: under the UNIQUE(startup_id, user_id) constraint (at most one row
for the pair), calling `add_startup_member` twice returns the same request
id both times and leaves exactly one row for the pair; with no prior row
the first call inserts a row with status `"pending"` and returns its id,
and with a prior row the call returns the existing row's id without
modifying the store. -/
theorem claim_C3_add_member_idempotent (db : DB) (sid : Nat) (uid : Int)
    (n1 n2 : Nat) (hinv : memberPairCount db sid uid ≤ 1) :
    (add_startup_member (add_startup_member db sid uid n1).2 sid uid n2).1 =
      (add_startup_member db sid uid n1).1 ∧
    (add_startup_member (add_startup_member db sid uid n1).2 sid uid n2).2 =
      (add_startup_member db sid uid n1).2 ∧
    memberPairCount (add_startup_member db sid uid n1).2 sid uid = 1 ∧
    (memberPairCount db sid uid = 0 →
      (add_startup_member db sid uid n1).1 = some db.nextMemberId ∧
      (add_startup_member db sid uid n1).2.members =
        db.members ++
          [{ id := db.nextMemberId, startup_id := sid, user_id := uid,
             status := "pending", joined_at := n1 }]) ∧
    (memberPairCount db sid uid ≠ 0 →
      (add_startup_member db sid uid n1).2 = db ∧
      ∃ m ∈ db.members, m.startup_id = sid ∧ m.user_id = uid ∧
        (add_startup_member db sid uid n1).1 = some m.id) := by
  cases hf : db.members.find?
      (fun m => m.startup_id == sid && m.user_id == uid) with
  | none =>
      have hcount0 : memberPairCount db sid uid = 0 := by
        unfold memberPairCount
        rw [List.length_eq_zero, List.filter_eq_nil_iff]
        exact List.find?_eq_none.mp hf
      have hfilnil : db.members.filter
          (fun m => m.startup_id == sid && m.user_id == uid) = [] := by
        rw [List.filter_eq_nil_iff]
        exact List.find?_eq_none.mp hf
      have e1 := add_member_not_found db sid uid n1 hf
      have hpnew :
          (fun m : MemberRow => m.startup_id == sid && m.user_id == uid)
            ({ id := db.nextMemberId, startup_id := sid, user_id := uid,
               status := "pending", joined_at := n1 } : MemberRow) = true := by
        simp
      have hf2 : (db.members ++
          [({ id := db.nextMemberId, startup_id := sid, user_id := uid,
              status := "pending", joined_at := n1 } : MemberRow)]).find?
            (fun m => m.startup_id == sid && m.user_id == uid) =
          some ({ id := db.nextMemberId, startup_id := sid, user_id := uid,
                  status := "pending", joined_at := n1 } : MemberRow) := by
        rw [List.find?_append, hf, Option.none_or]
        exact List.find?_cons_of_pos _ hpnew
      rw [e1]
      have e2 := add_member_found
        { db with
          members := db.members ++
            [{ id := db.nextMemberId, startup_id := sid, user_id := uid,
               status := "pending", joined_at := n1 }],
          nextMemberId := db.nextMemberId + 1 } sid uid n2 _ hf2
      refine ⟨?_, ?_, ?_, ?_, ?_⟩
      · rw [e2]
      · rw [e2]
      · show ((db.members ++
          [({ id := db.nextMemberId, startup_id := sid, user_id := uid,
              status := "pending", joined_at := n1 } : MemberRow)]).filter
            (fun m => m.startup_id == sid && m.user_id == uid)).length = 1
        rw [List.filter_append, hfilnil,
          List.filter_cons_of_pos
            (p := fun m : MemberRow => m.startup_id == sid && m.user_id == uid)
            hpnew]
        rfl
      · intro _
        exact ⟨rfl, rfl⟩
      · intro hne
        exact absurd hcount0 hne
  | some m =>
      have hm : m ∈ db.members :=
        List.mem_of_find?_eq_some hf
      have hpm : (m.startup_id == sid && m.user_id == uid) = true :=
        List.find?_some
          (p := fun x : MemberRow => x.startup_id == sid && x.user_id == uid) hf
      have hsidm : m.startup_id = sid := by
        have := (Bool.and_eq_true _ _).mp hpm
        exact beq_iff_eq.mp this.1
      have huidm : m.user_id = uid := by
        have := (Bool.and_eq_true _ _).mp hpm
        exact beq_iff_eq.mp this.2
      have hcount1 : memberPairCount db sid uid = 1 := by
        have hmem : m ∈ db.members.filter
            (fun m => m.startup_id == sid && m.user_id == uid) :=
          List.mem_filter.mpr ⟨hm, hpm⟩
        have hpos : 0 < memberPairCount db sid uid := by
          unfold memberPairCount
          exact List.length_pos.mpr (List.ne_nil_of_mem hmem)
        omega
      have e1 := add_member_found db sid uid n1 m hf
      rw [e1]
      refine ⟨?_, ?_, ?_, ?_, ?_⟩
      · rw [add_member_found db sid uid n2 m hf]
      · rw [add_member_found db sid uid n2 m hf]
      · exact hcount1
      · intro h0
        rw [hcount1] at h0
        cases h0
      · intro _
        exact ⟨rfl, m, hm, hsidm, huidm, rfl⟩

/-- Witness for C3 at the sample store: the pair (1, 12) has no row yet. -/
theorem claim_C3_add_member_idempotent_witness :
    (add_startup_member (add_startup_member dbW 1 12 7).2 1 12 8).1 =
      (add_startup_member dbW 1 12 7).1 ∧
    (add_startup_member (add_startup_member dbW 1 12 7).2 1 12 8).2 =
      (add_startup_member dbW 1 12 7).2 ∧
    memberPairCount (add_startup_member dbW 1 12 7).2 1 12 = 1 ∧
    (memberPairCount dbW 1 12 = 0 →
      (add_startup_member dbW 1 12 7).1 = some dbW.nextMemberId ∧
      (add_startup_member dbW 1 12 7).2.members =
        dbW.members ++
          [{ id := dbW.nextMemberId, startup_id := 1, user_id := 12,
             status := "pending", joined_at := 7 }]) ∧
    (memberPairCount dbW 1 12 ≠ 0 →
      (add_startup_member dbW 1 12 7).2 = dbW ∧
      ∃ m ∈ dbW.members, m.startup_id = 1 ∧ m.user_id = 12 ∧
        (add_startup_member dbW 1 12 7).1 = some m.id) :=
  claim_C3_add_member_idempotent dbW 1 12 7 8 (by decide)

/-! ## Claim C4 -/

/-- C4: `save_user` is a full-row replace keyed on `user_id`: after the
call exactly one row carries the saved `user_id` while the count for every
other `user_id` is unchanged (so any sequence of `save_user` calls leaves
at most one row per `user_id`); the surviving row has the newly passed
`username` and `first_name`, the schema default empty string for
`last_name`, `phone`, `gender`, `birth_date` and `bio`, and `joined_at`
overwritten with the time of the latest call. -/
theorem claim_C4_save_user_upsert (db : DB) (uid v : Int)
    (username first_name : String) (now : Nat) (hv : v ≠ uid) :
    get_user (save_user db uid username first_name now) uid =
      some { id := db.nextUserRowId, user_id := uid, username := username,
             first_name := first_name, last_name := "", phone := "",
             gender := "", birth_date := "", bio := "", joined_at := now } ∧
    countUser (save_user db uid username first_name now) uid = 1 ∧
    countUser (save_user db uid username first_name now) v = countUser db v ∧
    (save_user db uid username first_name now).startups = db.startups ∧
    (save_user db uid username first_name now).members = db.members := by
  have hpnew :
      (fun u : UserRow => u.user_id == uid)
        ({ id := db.nextUserRowId, user_id := uid, username := username,
           first_name := first_name, last_name := "", phone := "",
           gender := "", birth_date := "", bio := "", joined_at := now } :
          UserRow) = true := by
    simp
  have hkeepnil : (db.users.filter (fun u => u.user_id != uid)).filter
      (fun u => u.user_id == uid) = [] := by
    rw [List.filter_eq_nil_iff]
    intro u hu
    have := (List.mem_filter.mp hu).2
    simp only [bne_iff_ne, ne_eq] at this
    simp [this]
  refine ⟨?_, ?_, ?_, rfl, rfl⟩
  · show ((db.users.filter (fun u => u.user_id != uid)) ++
        [({ id := db.nextUserRowId, user_id := uid, username := username,
            first_name := first_name, last_name := "", phone := "",
            gender := "", birth_date := "", bio := "",
            joined_at := now } : UserRow)]).find?
          (fun u => u.user_id == uid) = some _
    have hn : (db.users.filter (fun u => u.user_id != uid)).find?
        (fun u => u.user_id == uid) = none := by
      rw [List.find?_eq_none]
      intro u hu
      have := (List.mem_filter.mp hu).2
      simp only [bne_iff_ne, ne_eq] at this
      simp [this]
    rw [List.find?_append, hn, Option.none_or]
    exact List.find?_cons_of_pos _ hpnew
  · show (((db.users.filter (fun u => u.user_id != uid)) ++
        [({ id := db.nextUserRowId, user_id := uid, username := username,
            first_name := first_name, last_name := "", phone := "",
            gender := "", birth_date := "", bio := "",
            joined_at := now } : UserRow)]).filter
          (fun u => u.user_id == uid)).length = 1
    rw [List.filter_append, hkeepnil,
      List.filter_cons_of_pos (p := fun u : UserRow => u.user_id == uid) hpnew]
    rfl
  · show (((db.users.filter (fun u => u.user_id != uid)) ++
        [({ id := db.nextUserRowId, user_id := uid, username := username,
            first_name := first_name, last_name := "", phone := "",
            gender := "", birth_date := "", bio := "",
            joined_at := now } : UserRow)]).filter
          (fun u => u.user_id == v)).length = countUser db v
    rw [List.filter_append]
    have hnewv : ((
        [({ id := db.nextUserRowId, user_id := uid, username := username,
            first_name := first_name, last_name := "", phone := "",
            gender := "", birth_date := "", bio := "",
            joined_at := now } : UserRow)]).filter
          (fun u => u.user_id == v)) = [] := by
      rw [List.filter_eq_nil_iff]
      intro u hu
      rw [List.mem_singleton] at hu
      subst hu
      simp [beq_iff_eq]
      omega
    have hff : (db.users.filter (fun u => u.user_id != uid)).filter
        (fun u => u.user_id == v) = db.users.filter (fun u => u.user_id == v) := by
      rw [List.filter_filter]
      apply List.filter_congr
      intro u _
      by_cases h : u.user_id = v
      · simp [h, beq_iff_eq]
        omega
      · simp [beq_iff_eq, h]
    rw [hnewv, hff, List.append_nil]
    rfl

/-- Witness for C4 at the sample store: re-saving user 10, with 11 as the
untouched other id. -/
theorem claim_C4_save_user_upsert_witness :
    get_user (save_user dbW 10 "al2" "Al2" 9) 10 =
      some { id := dbW.nextUserRowId, user_id := 10, username := "al2",
             first_name := "Al2", last_name := "", phone := "",
             gender := "", birth_date := "", bio := "", joined_at := 9 } ∧
    countUser (save_user dbW 10 "al2" "Al2" 9) 10 = 1 ∧
    countUser (save_user dbW 10 "al2" "Al2" 9) 11 = countUser dbW 11 ∧
    (save_user dbW 10 "al2" "Al2" 9).startups = dbW.startups ∧
    (save_user dbW 10 "al2" "Al2" 9).members = dbW.members :=
  claim_C4_save_user_upsert dbW 10 11 "al2" "Al2" 9 (by decide)

/-! ## Claim C5 -/

/-- Inserting into the ordered list adds exactly one element. -/
theorem length_insertByCreated (s : StartupRow) (l : List StartupRow) :
    (insertByCreated s l).length = l.length + 1 := by
  induction l with
  | nil => rfl
  | cons t ts ih =>
      unfold insertByCreated
      split
      · simp [ih]
      · simp

/-- Reordering by `created_at` preserves the number of rows. -/
theorem length_orderByCreatedDesc (l : List StartupRow) :
    (orderByCreatedDesc l).length = l.length := by
  induction l with
  | nil => rfl
  | cons s rest ih =>
      unfold orderByCreatedDesc
      rw [length_insertByCreated, ih]
      simp

/-- Shared pagination facts for one status-filtered query: the page is the
offset slice of the ordered matching rows, its length is at most
`per_page`, the reported total is the true count of matching rows, and a
page past the last matching row is empty. -/
theorem pageByStatus_spec (db : DB) (st : String) (page pp : Nat) :
    (pageByStatus db st page pp).1.length ≤ pp ∧
    (pageByStatus db st page pp).2 = (statusStartups db st).length ∧
    (pageByStatus db st page pp).1 =
      ((orderByCreatedDesc (statusStartups db st)).drop ((page - 1) * pp)).take pp ∧
    ((statusStartups db st).length ≤ (page - 1) * pp →
      (pageByStatus db st page pp).1 = []) := by
  refine ⟨List.length_take_le _ _, rfl, rfl, ?_⟩
  intro h
  have hd : (orderByCreatedDesc (statusStartups db st)).drop ((page - 1) * pp) = [] :=
    List.drop_eq_nil_of_le (by rw [length_orderByCreatedDesc]; exact h)
  show ((orderByCreatedDesc (statusStartups db st)).drop ((page - 1) * pp)).take pp = []
  rw [hd]
  exact List.take_nil

/-- C5: for `page ≥ 1` and `per_page ≥ 1`, each status-filtered paginated
query returns the slice of matching rows starting at offset
`(page - 1) * per_page` of length at most `per_page`, together with the
total count of all matching rows; a page past the last matching row
yields the empty list while the returned total still equals the true
count. -/
theorem claim_C5_pagination (db : DB) (page pp : Nat) (hp : 1 ≤ page)
    (hpp : 1 ≤ pp) :
    ((get_pending_startups db page pp).1.length ≤ pp ∧
     (get_pending_startups db page pp).2 = (statusStartups db "pending").length ∧
     (get_pending_startups db page pp).1 =
       ((orderByCreatedDesc (statusStartups db "pending")).drop
         ((page - 1) * pp)).take pp ∧
     ((statusStartups db "pending").length ≤ (page - 1) * pp →
       (get_pending_startups db page pp).1 = [])) ∧
    ((get_active_startups db page pp).1.length ≤ pp ∧
     (get_active_startups db page pp).2 = (statusStartups db "active").length ∧
     (get_active_startups db page pp).1 =
       ((orderByCreatedDesc (statusStartups db "active")).drop
         ((page - 1) * pp)).take pp ∧
     ((statusStartups db "active").length ≤ (page - 1) * pp →
       (get_active_startups db page pp).1 = [])) ∧
    ((get_completed_startups db page pp).1.length ≤ pp ∧
     (get_completed_startups db page pp).2 =
       (statusStartups db "completed").length ∧
     (get_completed_startups db page pp).1 =
       ((orderByCreatedDesc (statusStartups db "completed")).drop
         ((page - 1) * pp)).take pp ∧
     ((statusStartups db "completed").length ≤ (page - 1) * pp →
       (get_completed_startups db page pp).1 = [])) ∧
    ((get_rejected_startups db page pp).1.length ≤ pp ∧
     (get_rejected_startups db page pp).2 =
       (statusStartups db "rejected").length ∧
     (get_rejected_startups db page pp).1 =
       ((orderByCreatedDesc (statusStartups db "rejected")).drop
         ((page - 1) * pp)).take pp ∧
     ((statusStartups db "rejected").length ≤ (page - 1) * pp →
       (get_rejected_startups db page pp).1 = [])) :=
  ⟨pageByStatus_spec db "pending" page pp,
   pageByStatus_spec db "active" page pp,
   pageByStatus_spec db "completed" page pp,
   pageByStatus_spec db "rejected" page pp⟩

/-- Witness for C5 at the sample store with page 2 and page size 1: the
single pending row fits on page 1, so page 2 is empty with total 1. -/
theorem claim_C5_pagination_witness :
    (1 ≤ 2 ∧ 1 ≤ 1) ∧
    (((get_pending_startups dbW 2 1).1.length ≤ 1 ∧
      (get_pending_startups dbW 2 1).2 = (statusStartups dbW "pending").length ∧
      (get_pending_startups dbW 2 1).1 =
        ((orderByCreatedDesc (statusStartups dbW "pending")).drop
          ((2 - 1) * 1)).take 1 ∧
      ((statusStartups dbW "pending").length ≤ (2 - 1) * 1 →
        (get_pending_startups dbW 2 1).1 = [])) ∧
     ((get_active_startups dbW 2 1).1.length ≤ 1 ∧
      (get_active_startups dbW 2 1).2 = (statusStartups dbW "active").length ∧
      (get_active_startups dbW 2 1).1 =
        ((orderByCreatedDesc (statusStartups dbW "active")).drop
          ((2 - 1) * 1)).take 1 ∧
      ((statusStartups dbW "active").length ≤ (2 - 1) * 1 →
        (get_active_startups dbW 2 1).1 = [])) ∧
     ((get_completed_startups dbW 2 1).1.length ≤ 1 ∧
      (get_completed_startups dbW 2 1).2 =
        (statusStartups dbW "completed").length ∧
      (get_completed_startups dbW 2 1).1 =
        ((orderByCreatedDesc (statusStartups dbW "completed")).drop
          ((2 - 1) * 1)).take 1 ∧
      ((statusStartups dbW "completed").length ≤ (2 - 1) * 1 →
        (get_completed_startups dbW 2 1).1 = [])) ∧
     ((get_rejected_startups dbW 2 1).1.length ≤ 1 ∧
      (get_rejected_startups dbW 2 1).2 =
        (statusStartups dbW "rejected").length ∧
      (get_rejected_startups dbW 2 1).1 =
        ((orderByCreatedDesc (statusStartups dbW "rejected")).drop
          ((2 - 1) * 1)).take 1 ∧
      ((statusStartups dbW "rejected").length ≤ (2 - 1) * 1 →
        (get_rejected_startups dbW 2 1).1 = []))) :=
  ⟨⟨by decide, by decide⟩, claim_C5_pagination dbW 2 1 (by decide) (by decide)⟩

/-! ## Claim C6 -/

/-- Membership in the accepted-rows filter unpacked. -/
theorem mem_acceptedRows (db : DB) (sid : Nat) (m : MemberRow)
    (h : m ∈ acceptedRows db sid) :
    m ∈ db.members ∧ m.startup_id = sid ∧ m.status = "accepted" := by
  have h2 := List.mem_filter.mp h
  have h3 := (Bool.and_eq_true _ _).mp h2.2
  exact ⟨h2.1, beq_iff_eq.mp h3.1, beq_iff_eq.mp h3.2⟩

/-- Every row of the accepted member/users join stems from an accepted
membership row with the same user identifier. -/
theorem mem_acceptedJoin (db : DB) (sid : Nat) (info : MemberInfo)
    (h : info ∈ acceptedJoin db sid) :
    ∃ m ∈ db.members, m.startup_id = sid ∧ m.status = "accepted" ∧
      m.user_id = info.user_id := by
  unfold acceptedJoin at h
  rw [List.mem_filterMap] at h
  obtain ⟨m, hm, hf⟩ := h
  obtain ⟨hmem, hsid, hacc⟩ := mem_acceptedRows db sid m hm
  obtain ⟨u, hfind, hproj⟩ := Option.map_eq_some'.mp hf
  have hub : (u.user_id == m.user_id) = true :=
    List.find?_some (p := fun x : UserRow => x.user_id == m.user_id) hfind
  refine ⟨m, hmem, hsid, hacc, ?_⟩
  subst hproj
  exact (beq_iff_eq.mp hub).symm

/-- C6: `get_startup_members` returns only members whose membership-request
status is exactly `"accepted"` and its total counts only such rows, and
`get_all_startup_members` returns exactly the user identifiers of accepted
rows; under the UNIQUE(startup_id, user_id) constraint, a row with status
`"pending"` (or any other non-accepted status) for the same startup
appears in neither the returned lists nor the count. -/
theorem claim_C6_accepted_members_only (db : DB) (sid : Nat) (page pp : Nat)
    (hu : pairUnique db) :
    (∀ info ∈ (get_startup_members db sid page pp).1,
      ∃ m ∈ db.members, m.startup_id = sid ∧ m.status = "accepted" ∧
        m.user_id = info.user_id) ∧
    (get_startup_members db sid page pp).2 ≤ (acceptedRows db sid).length ∧
    (∀ uid ∈ get_all_startup_members db sid,
      ∃ m ∈ db.members, m.startup_id = sid ∧ m.status = "accepted" ∧
        m.user_id = uid) ∧
    (∀ m ∈ db.members, m.startup_id = sid → m.status ≠ "accepted" →
      m.user_id ∉ get_all_startup_members db sid ∧
      ∀ info ∈ (get_startup_members db sid page pp).1,
        info.user_id ≠ m.user_id) := by
  have hpage : ∀ info ∈ (get_startup_members db sid page pp).1,
      ∃ m ∈ db.members, m.startup_id = sid ∧ m.status = "accepted" ∧
        m.user_id = info.user_id := by
    intro info hinfo
    have h1 : info ∈ acceptedJoin db sid :=
      List.mem_of_mem_drop (List.mem_of_mem_take hinfo)
    exact mem_acceptedJoin db sid info h1
  have hall : ∀ uid ∈ get_all_startup_members db sid,
      ∃ m ∈ db.members, m.startup_id = sid ∧ m.status = "accepted" ∧
        m.user_id = uid := by
    intro uid huid
    unfold get_all_startup_members at huid
    rw [List.mem_map] at huid
    obtain ⟨m, hm, he⟩ := huid
    obtain ⟨hmem, hsid, hacc⟩ := mem_acceptedRows db sid m hm
    exact ⟨m, hmem, hsid, hacc, he⟩
  refine ⟨hpage, ?_, hall, ?_⟩
  · exact List.length_filterMap_le _ _
  · intro m hm hsid hnacc
    constructor
    · intro habs
      obtain ⟨m2, hm2, hsid2, hacc2, hu2⟩ := hall m.user_id habs
      have : m2 = m := hu m2 hm2 m hm (by rw [hsid, hsid2]) hu2
      rw [this] at hacc2
      exact hnacc hacc2
    · intro info hinfo heq
      obtain ⟨m2, hm2, hsid2, hacc2, hu2⟩ := hpage info hinfo
      have hueq : m2.user_id = m.user_id := by rw [hu2, heq]
      have : m2 = m := hu m2 hm2 m hm (by rw [hsid, hsid2]) hueq
      rw [this] at hacc2
      exact hnacc hacc2

/-- Witness for C6 at the sample store: startup 1 has one accepted member
(user 10) and one pending request (user 11). -/
theorem claim_C6_accepted_members_only_witness :
    (∀ info ∈ (get_startup_members dbW 1 1 5).1,
      ∃ m ∈ dbW.members, m.startup_id = 1 ∧ m.status = "accepted" ∧
        m.user_id = info.user_id) ∧
    (get_startup_members dbW 1 1 5).2 ≤ (acceptedRows dbW 1).length ∧
    (∀ uid ∈ get_all_startup_members dbW 1,
      ∃ m ∈ dbW.members, m.startup_id = 1 ∧ m.status = "accepted" ∧
        m.user_id = uid) ∧
    (∀ m ∈ dbW.members, m.startup_id = 1 → m.status ≠ "accepted" →
      m.user_id ∉ get_all_startup_members dbW 1 ∧
      ∀ info ∈ (get_startup_members dbW 1 1 5).1,
        info.user_id ≠ m.user_id) :=
  claim_C6_accepted_members_only dbW 1 1 5 (by decide)

/-! ## Claim C7 -/

/-- A list of startups whose statuses all lie in the four known values is
exactly covered by the four status filters. -/
theorem length_eq_sum_four (l : List StartupRow)
    (h : ∀ s ∈ l, s.status = "active" ∨ s.status = "pending" ∨
      s.status = "completed" ∨ s.status = "rejected") :
    l.length = (l.filter (fun s => s.status == "active")).length +
      ((l.filter (fun s => s.status == "pending")).length +
       ((l.filter (fun s => s.status == "completed")).length +
        (l.filter (fun s => s.status == "rejected")).length)) := by
  induction l with
  | nil => rfl
  | cons a t ih =>
      have ha := h a (List.mem_cons_self a t)
      have ih2 := ih (fun x hx => h x (List.mem_cons_of_mem a hx))
      rcases ha with h1 | h1 | h1 | h1 <;>
        simp [List.filter_cons, h1, List.length_cons, ih2] <;> omega

/-- C7: when every startups row has one of the four known statuses, the
statistics snapshot satisfies `total_startups = active + pending +
completed + rejected`, and `total_users` is the number of users rows; the
successful snapshot consists of exactly these six counts. -/
theorem claim_C7_statistics_sum (db : DB)
    (h : ∀ s ∈ db.startups, s.status = "active" ∨ s.status = "pending" ∨
      s.status = "completed" ∨ s.status = "rejected") :
    (get_statistics db).total_startups =
      (get_statistics db).active_startups +
      ((get_statistics db).pending_startups +
       ((get_statistics db).completed_startups +
        (get_statistics db).rejected_startups)) ∧
    (get_statistics db).total_users = db.users.length :=
  ⟨length_eq_sum_four db.startups h, rfl⟩

/-- Witness for C7 at the sample store (one pending startup, two users). -/
theorem claim_C7_statistics_sum_witness :
    (get_statistics dbW).total_startups =
      (get_statistics dbW).active_startups +
      ((get_statistics dbW).pending_startups +
       ((get_statistics dbW).completed_startups +
        (get_statistics dbW).rejected_startups)) ∧
    (get_statistics dbW).total_users = dbW.users.length :=
  claim_C7_statistics_sum dbW (by decide)

/-! ## Claim C8 -/

/-- For a field in the known-safe column set, `setUserField` sets exactly
the named column and leaves every other column (and the id, user_id and
joined_at columns) unchanged. -/
theorem setUserField_spec (u : UserRow) (field value : String)
    (hf : field ∈ userFields) :
    getUserField (setUserField u field value) field = value ∧
    (∀ g ∈ userFields, g ≠ field →
      getUserField (setUserField u field value) g = getUserField u g) ∧
    (setUserField u field value).id = u.id ∧
    (setUserField u field value).user_id = u.user_id ∧
    (setUserField u field value).joined_at = u.joined_at := by
  simp only [userFields, List.mem_cons, List.not_mem_nil, or_false] at hf
  rcases hf with h | h | h | h | h | h | h <;> subst h <;>
    refine ⟨by simp [setUserField, getUserField], ?_,
      by simp [setUserField], by simp [setUserField], by simp [setUserField]⟩ <;>
    intro g hg hne <;>
    simp only [userFields, List.mem_cons, List.not_mem_nil, or_false] at hg <;>
    rcases hg with h | h | h | h | h | h | h <;>
    first
      | exact absurd h hne
      | (subst h; simp [setUserField, getUserField])

/-- C8: for `field` drawn from the known-safe set of users columns,
`update_user_field` sets exactly that one column of every row matching
`user_id` to the value, leaving every other column of that row, every row
with a different `user_id`, and the startups and startup_members tables
unchanged. -/
theorem claim_C8_single_field_update (db : DB) (uid : Int)
    (field value : String) (hf : field ∈ userFields) :
    (update_user_field db uid field value).startups = db.startups ∧
    (update_user_field db uid field value).members = db.members ∧
    (update_user_field db uid field value).users.length = db.users.length ∧
    ∀ i : Nat, ∀ hi : i < db.users.length,
      ∀ hi2 : i < (update_user_field db uid field value).users.length,
      ((db.users[i].user_id ≠ uid →
        (update_user_field db uid field value).users[i] = db.users[i]) ∧
       (db.users[i].user_id = uid →
        getUserField ((update_user_field db uid field value).users[i]) field =
          value ∧
        (∀ g ∈ userFields, g ≠ field →
          getUserField ((update_user_field db uid field value).users[i]) g =
            getUserField (db.users[i]) g) ∧
        ((update_user_field db uid field value).users[i]).id =
          (db.users[i]).id ∧
        ((update_user_field db uid field value).users[i]).user_id =
          (db.users[i]).user_id ∧
        ((update_user_field db uid field value).users[i]).joined_at =
          (db.users[i]).joined_at)) := by
  refine ⟨rfl, rfl, List.length_map _ _, ?_⟩
  intro i hi hi2
  have hget : (update_user_field db uid field value).users[i] =
      if db.users[i].user_id == uid then setUserField (db.users[i]) field value
      else db.users[i] := by
    show (db.users.map (fun u =>
      if u.user_id == uid then setUserField u field value else u))[i] = _
    rw [List.getElem_map]
  constructor
  · intro hne
    rw [hget, if_neg (by simp [beq_iff_eq, hne])]
  · intro heq
    rw [hget, if_pos (by simp [beq_iff_eq, heq])]
    exact setUserField_spec (db.users[i]) field value hf

/-- Witness for C8 at the sample store: updating user 10's phone column. -/
theorem claim_C8_single_field_update_witness :
    (update_user_field dbW 10 "phone" "99").startups = dbW.startups ∧
    (update_user_field dbW 10 "phone" "99").members = dbW.members ∧
    (update_user_field dbW 10 "phone" "99").users.length = dbW.users.length ∧
    ∀ i : Nat, ∀ hi : i < dbW.users.length,
      ∀ hi2 : i < (update_user_field dbW 10 "phone" "99").users.length,
      ((dbW.users[i].user_id ≠ 10 →
        (update_user_field dbW 10 "phone" "99").users[i] = dbW.users[i]) ∧
       (dbW.users[i].user_id = 10 →
        getUserField ((update_user_field dbW 10 "phone" "99").users[i])
          "phone" = "99" ∧
        (∀ g ∈ userFields, g ≠ "phone" →
          getUserField ((update_user_field dbW 10 "phone" "99").users[i]) g =
            getUserField (dbW.users[i]) g) ∧
        ((update_user_field dbW 10 "phone" "99").users[i]).id =
          (dbW.users[i]).id ∧
        ((update_user_field dbW 10 "phone" "99").users[i]).user_id =
          (dbW.users[i]).user_id ∧
        ((update_user_field dbW 10 "phone" "99").users[i]).joined_at =
          (dbW.users[i]).joined_at)) :=
  claim_C8_single_field_update dbW 10 "phone" "99" (by decide)

/-! ## Claim C9 -/

/-- C9 counterexample: in `get_user`, an engine fault at call 1 (the
`execute`, after the connection is opened) reaches the `except` branch,
which returns without `conn.close()` — so the opened connection is not
released before the operation returns, contradicting the claim. -/
theorem claim_C9_counterexample :
    (get_user_trace (some 1)).opened = true ∧
    ¬ (get_user_trace (some 1)).closed = true := by
  decide

/-- C9 (amended): on calls where no engine failure occurs, every operation
closes its connection before returning; but when the engine raises at any
call after the connect, the `except` branch returns the safe default with
the opened connection left unclosed (it is reclaimed only by garbage
collection). -/
theorem claim_C9_close_on_success (steps i : Nat) (h1 : 1 ≤ i) (h2 : i ≤ steps) :
    runTryBlock steps none = { opened := true, closed := true } ∧
    runTryBlock steps (some i) = { opened := true, closed := false } ∧
    get_user_trace none = { opened := true, closed := true } ∧
    save_user_trace none = { opened := true, closed := true } ∧
    update_user_field_trace none = { opened := true, closed := true } ∧
    create_startup_trace none = { opened := true, closed := true } ∧
    get_startup_trace none = { opened := true, closed := true } ∧
    get_startups_by_owner_trace none = { opened := true, closed := true } ∧
    get_pending_startups_trace none = { opened := true, closed := true } ∧
    get_active_startups_trace none = { opened := true, closed := true } ∧
    get_completed_startups_trace none = { opened := true, closed := true } ∧
    get_rejected_startups_trace none = { opened := true, closed := true } ∧
    update_startup_status_trace none = { opened := true, closed := true } ∧
    update_startup_results_trace none = { opened := true, closed := true } ∧
    add_startup_member_trace none = { opened := true, closed := true } ∧
    get_join_request_id_trace none = { opened := true, closed := true } ∧
    update_join_request_trace none = { opened := true, closed := true } ∧
    get_startup_members_trace none = { opened := true, closed := true } ∧
    get_all_startup_members_trace none = { opened := true, closed := true } ∧
    get_statistics_trace none = { opened := true, closed := true } ∧
    get_all_users_trace none = { opened := true, closed := true } ∧
    get_recent_users_trace none = { opened := true, closed := true } ∧
    get_recent_startups_trace none = { opened := true, closed := true } := by
  refine ⟨rfl, ?_, rfl, rfl, rfl, rfl, rfl, rfl, rfl, rfl, rfl, rfl, rfl, rfl,
    rfl, rfl, rfl, rfl, rfl, rfl, rfl, rfl, rfl⟩
  have hne : ¬ i = 0 := by omega
  simp [runTryBlock, hne, h2]

/-- Witness for the amended C9 at steps = 2, fault at call 1. -/
theorem claim_C9_close_on_success_witness :
    (1 ≤ 1 ∧ 1 ≤ 2) ∧
    (runTryBlock 2 none = { opened := true, closed := true } ∧
     runTryBlock 2 (some 1) = { opened := true, closed := false } ∧
     get_user_trace none = { opened := true, closed := true } ∧
     save_user_trace none = { opened := true, closed := true } ∧
     update_user_field_trace none = { opened := true, closed := true } ∧
     create_startup_trace none = { opened := true, closed := true } ∧
     get_startup_trace none = { opened := true, closed := true } ∧
     get_startups_by_owner_trace none = { opened := true, closed := true } ∧
     get_pending_startups_trace none = { opened := true, closed := true } ∧
     get_active_startups_trace none = { opened := true, closed := true } ∧
     get_completed_startups_trace none = { opened := true, closed := true } ∧
     get_rejected_startups_trace none = { opened := true, closed := true } ∧
     update_startup_status_trace none = { opened := true, closed := true } ∧
     update_startup_results_trace none = { opened := true, closed := true } ∧
     add_startup_member_trace none = { opened := true, closed := true } ∧
     get_join_request_id_trace none = { opened := true, closed := true } ∧
     update_join_request_trace none = { opened := true, closed := true } ∧
     get_startup_members_trace none = { opened := true, closed := true } ∧
     get_all_startup_members_trace none = { opened := true, closed := true } ∧
     get_statistics_trace none = { opened := true, closed := true } ∧
     get_all_users_trace none = { opened := true, closed := true } ∧
     get_recent_users_trace none = { opened := true, closed := true } ∧
     get_recent_startups_trace none = { opened := true, closed := true }) :=
  ⟨⟨by decide, by decide⟩, claim_C9_close_on_success 2 1 (by decide) (by decide)⟩

/-! ## Claim C10 -/

/-- C10: when the given id matches no stored row, the three mutation
operations return normally and leave the whole store unchanged — no row is
created and no existing row in any table is modified. -/
theorem claim_C10_missing_id_noop (db : DB) (sid rid : Nat)
    (status results : String) (now : Nat)
    (h1 : ∀ s ∈ db.startups, s.id ≠ sid)
    (h2 : ∀ m ∈ db.members, m.id ≠ rid) :
    update_startup_status db sid status now = db ∧
    update_startup_results db sid results = db ∧
    update_join_request db rid status = db := by
  refine ⟨?_, ?_, ?_⟩
  · have hs : db.startups.map (startupStatusStep sid status now) = db.startups :=
      map_id_on _ _ (fun s hs => by
        simp [startupStatusStep, beq_iff_eq, h1 s hs])
    unfold update_startup_status
    rw [hs]
  · have hs : db.startups.map
        (fun s => if s.id == sid then { s with results := results } else s) =
        db.startups :=
      map_id_on _ _ (fun s hs => by simp [beq_iff_eq, h1 s hs])
    unfold update_startup_results
    rw [hs]
  · have hm : db.members.map
        (fun m => if m.id == rid then { m with status := status } else m) =
        db.members :=
      map_id_on _ _ (fun m hm => by simp [beq_iff_eq, h2 m hm])
    unfold update_join_request
    rw [hm]

/-- Witness for C10: on the sample store, id 5 matches no startup and no
membership row, and all three mutations are no-ops there. -/
theorem claim_C10_missing_id_noop_witness :
    update_startup_status dbW 5 "accepted" 9 = dbW ∧
    update_startup_results dbW 5 "r" = dbW ∧
    update_join_request dbW 5 "accepted" = dbW :=
  claim_C10_missing_id_noop dbW 5 5 "accepted" "r" 9 (by decide) (by decide)

end OddiyBot
